import Mathlib

/-!
A shallow embedding of `src/parser.rs` from the `thol_sprites_mini_parser`
repository, together with theorems settling the specification claims.

The input stream is a `List Char`.  A parser over winnow `&str` is modelled
as a function from the stream to `Option (result × remaining stream)`: in
every combinator used by the source (`alt`, `opt`, `repeat_till`,
`separated`) a failing branch backtracks the input completely, so no error
detail beyond `none` is observable.

`f64` is never computed with in the source, only parsed and stored, so
`Number` models the exact value of the accepted numeral as an integer
mantissa together with a power of ten (plus the signed infinity / NaN
forms that winnow `float` also accepts).  No claim compares numbers
obtained from distinct lexemes, so this is faithful for every claim.
-/

set_option maxRecDepth 100000

namespace Thol

/-- Model of `types::Number` (a stored, never-computed-with `f64`). -/
inductive Number where
  | finite (mantissa : Int) (exp10 : Int)
  | inf (neg : Bool)
  | nan (neg : Bool)
deriving DecidableEq, Repr

/-- `types::Position`. -/
structure Position where
  x : Number
  y : Number
deriving DecidableEq, Repr

/-- `types::ColorRGB`. -/
structure ColorRGB where
  r : Number
  g : Number
  b : Number
deriving DecidableEq, Repr

/-- `types::AgeRange`. -/
structure AgeRange where
  min : Number
  max : Number
deriving DecidableEq, Repr

/-- `types::Sprite`. -/
structure Sprite where
  id : Nat
  position : Position
  rot : Number
  h_flip : Number
  color : ColorRGB
  age_range : AgeRange
  parent : Int
  invis_holding : Number
  invis_worn : Number
  behind_slots : Number
  invis_cont : Option Number
deriving DecidableEq, Repr

/-- `types::PersonCharacteristic`. -/
inductive PersonCharacteristic where
  | Feminine
  | Masculine
deriving DecidableEq, Repr

/-- `types::ClothingObject`. -/
inductive ClothingObject where
  | Shoe (offset : Position)
  | Tunic (offset : Position)
  | Hat (offset : Position)
  | Bottom (offset : Position)
  | Backpack (offset : Position)
deriving DecidableEq, Repr

/-- `impl Default for ClothingObject`: `Tunic(Position::default())`,
where `Position::default()` is `{x: Number(0.0), y: Number(0.0)}`. -/
def ClothingObject.default : ClothingObject :=
  .Tunic ⟨.finite 0 0, .finite 0 0⟩

/-- `types::NonPersonObject` (derived `Default` selects `Other`). -/
inductive NonPersonObject where
  | Clothing (c : ClothingObject)
  | Other
deriving DecidableEq, Repr

/-- `types::ObjectKind`. -/
inductive ObjectKind where
  | Person (c : PersonCharacteristic)
  | NonPerson (n : NonPersonObject)
deriving DecidableEq, Repr

/-- `types::Object`.  The Rust `description: String` is kept as the list of
its characters. -/
structure Object where
  id : Nat
  description : List Char
  kind : ObjectKind
  num_sprites : Nat
  sprites : List Sprite
  head_index : List Int
  body_index : List Int
  back_foot_index : List Int
  front_foot_index : List Int
deriving DecidableEq, Repr

/-- Derived `Default for Object` (every field defaulted; the `#[default]`
variant of `NonPersonObject` is `Other`). -/
def Object.default : Object :=
  ⟨0, [], .NonPerson .Other, 0, [], [], [], [], []⟩

/-! ## winnow primitives used by the source -/

/-- A parser over a character stream, in the style of a winnow parser over
`&str`: `none` is a (backtracking) failure. -/
abbrev P (α : Type) := List Char → Option (α × List Char)

/-- winnow `token::literal`: match an exact sequence of characters. -/
def literal (pat : List Char) : P Unit := fun s =>
  if pat.isPrefixOf s then some ((), s.drop pat.length) else none

/-- winnow `ascii::line_ending`: `"\n"` or `"\r\n"`. -/
def line_ending : P Unit := fun s =>
  match s with
  | '\n' :: r => some ((), r)
  | '\r' :: '\n' :: r => some ((), r)
  | _ => none

/-- `separator` (parser.rs line 454): `alt((line_ending, ","))`, result
discarded by every caller. -/
def separator : P Unit := fun s =>
  match line_ending s with
  | some u => some u
  | none => literal [','] s

/-- winnow `combinator::opt`: try `p`; on failure restore the input. -/
def opt {α : Type} (p : P α) : P (Option α) := fun s =>
  match p s with
  | some (a, s₁) => some (some a, s₁)
  | none => some (none, s)

/-- Scan forward to the first position where `pat` is a prefix of the
remaining input; `none` if there is none. -/
def takeUntilGo (pat : List Char) : List Char → Option (List Char)
  | [] => if pat.isPrefixOf ([] : List Char) then some [] else none
  | c :: rest =>
    if pat.isPrefixOf (c :: rest) then some (c :: rest) else takeUntilGo pat rest

/-- winnow `token::take_until(0.., pat)`: discard everything before the
next occurrence of `pat` (which is itself left unconsumed); fail when
`pat` does not occur. -/
def take_until (pat : List Char) : P Unit := fun s =>
  (takeUntilGo pat s).map fun r => ((), r)

/-- `pat` occurs somewhere (as a contiguous sub-sequence) in `s`. -/
def containsSub (pat : List Char) : List Char → Bool
  | [] => pat.isPrefixOf ([] : List Char)
  | c :: rest => pat.isPrefixOf (c :: rest) || containsSub pat rest

/-- Numeric value of a list of decimal digit characters. -/
def digitsToNat (ds : List Char) : Nat :=
  ds.foldl (fun n c => n * 10 + (c.toNat - '0'.toNat)) 0

def u64Max : Nat := 18446744073709551615

def u8Max : Nat := 255

def i64MaxMag : Nat := 9223372036854775807

/-- winnow `ascii::dec_uint` at an unsigned type with maximum `max`:
one or more decimal digits, failing on overflow (the checked
accumulation fails exactly when the value exceeds `max`). -/
def dec_uint (max : Nat) : P Nat := fun s =>
  let ds := s.takeWhile Char.isDigit
  if ds.isEmpty then none
  else if digitsToNat ds ≤ max then
    some (digitsToNat ds, s.dropWhile Char.isDigit)
  else none

/-- winnow `ascii::dec_int` at `i64`: optional sign then one or more
decimal digits, failing on overflow. -/
def dec_int : P Int := fun s =>
  let (neg, s₁) :=
    match s with
    | '-' :: r => (true, r)
    | '+' :: r => (false, r)
    | _ => (false, s)
  let ds := s₁.takeWhile Char.isDigit
  if ds.isEmpty then none
  else
    let m := digitsToNat ds
    if (if neg then m ≤ i64MaxMag + 1 else m ≤ i64MaxMag) then
      some ((if neg then -(m : Int) else (m : Int)), s₁.dropWhile Char.isDigit)
    else none

/-- winnow `ascii::alphanumeric1`: one or more ASCII letters or digits. -/
def alphanumeric1 : P (List Char) := fun s =>
  let ds := s.takeWhile Char.isAlphanum
  if ds.isEmpty then none else some (ds, s.dropWhile Char.isAlphanum)

/-- Sequencing of parser results: on success feed the value and the
remaining input to the continuation, on failure fail.  (This is exactly
the `?` / `parse_next` chaining of the source; a named combinator keeps
the compiled code of the long field chains small.) -/
def step {α β : Type} (r : Option (α × List Char)) (k : α → P β) :
    Option (β × List Char) :=
  match r with
  | none => none
  | some (a, s) => k a s

/-- `parse_assignment` (parser.rs line 815): literal key, literal `=`,
then the value parser. -/
def parse_assignment {α : Type} (key : String) (p : P α) : P α := fun s =>
  step (literal key.toList s) fun _ s =>
  step (literal ['='] s) fun _ s =>
  p s

/-! ## winnow `float` and the numeric sub-parsers -/

/-- Optional leading `-` / `+`. -/
def readSign : List Char → (Bool × List Char)
  | '-' :: r => (true, r)
  | '+' :: r => (false, r)
  | s => (false, s)

/-- Case-insensitive exact-sequence match (for `inf` / `infinity` /
`nan` accepted by winnow `float`). -/
def matchCI : List Char → List Char → Option (Unit × List Char)
  | [], s => some ((), s)
  | _ :: _, [] => none
  | p :: ps, c :: cs => if c.toLower = p.toLower then matchCI ps cs else none

/-- Optional exponent part `(e|E) sign? digit+`; attempted as a unit and
left unconsumed when incomplete. -/
def expPart (s : List Char) : Int × List Char :=
  match s with
  | c :: r =>
    if c = 'e' ∨ c = 'E' then
      let (eneg, r₁) := readSign r
      let ds := r₁.takeWhile Char.isDigit
      if ds.isEmpty then (0, s)
      else
        ((if eneg then -(digitsToNat ds : Int) else (digitsToNat ds : Int)),
         r₁.dropWhile Char.isDigit)
    else (0, s)
  | [] => (0, s)

/-- winnow `ascii::float` at `f64`: optional sign; `inf` / `infinity` /
`nan` case-insensitively; else digits with optional fraction (or a bare
`.digits`) and optional exponent.  The numeral's exact value is kept. -/
def float : P Number := fun s =>
  let (neg, s₁) := readSign s
  match matchCI "infinity".toList s₁ with
  | some (_, r) => some (.inf neg, r)
  | none =>
    match matchCI "inf".toList s₁ with
    | some (_, r) => some (.inf neg, r)
    | none =>
      match matchCI "nan".toList s₁ with
      | some (_, r) => some (.nan neg, r)
      | none =>
        let ip := s₁.takeWhile Char.isDigit
        let s₂ := s₁.dropWhile Char.isDigit
        if ip.isEmpty then
          match s₂ with
          | '.' :: r =>
            let fp := r.takeWhile Char.isDigit
            if fp.isEmpty then none
            else
              let (e, rest) := expPart (r.dropWhile Char.isDigit)
              some (.finite
                (if neg then -(digitsToNat fp : Int) else (digitsToNat fp : Int))
                (e - (fp.length : Int)), rest)
          | _ => none
        else
          match s₂ with
          | '.' :: r =>
            let fp := r.takeWhile Char.isDigit
            let (e, rest) := expPart (r.dropWhile Char.isDigit)
            let m := digitsToNat (ip ++ fp)
            some (.finite (if neg then -(m : Int) else (m : Int))
              (e - (fp.length : Int)), rest)
          | _ =>
            let (e, rest) := expPart s₂
            some (.finite
              (if neg then -(digitsToNat ip : Int) else (digitsToNat ip : Int))
              e, rest)

/-- `parse_number` (parser.rs line 811): `Number(float(input)?)`. -/
def parse_number : P Number := float

/-- Loop of winnow `separated(0.., dec_int, ",")` after the first element:
repeatedly a comma then an integer, stopping (before the comma) as soon
as the integer after a comma is missing.  Each step consumes at least the
comma, so the input length bounds the iteration count. -/
def sepByGo : Nat → List Char → (List Int × List Char)
  | 0, s => ([], s)
  | fuel + 1, s =>
    match s with
    | ',' :: r =>
      match dec_int r with
      | some (x, s₁) =>
        let (xs, rest) := sepByGo fuel s₁
        (x :: xs, rest)
      | none => ([], s)
    | _ => ([], s)

/-- winnow `separated(0.., dec_int, ",")`: zero or more comma-separated
integers, never consuming a trailing comma, never failing. -/
def separatedInts : P (List Int) := fun s =>
  match dec_int s with
  | none => some ([], s)
  | some (x, s₁) =>
    let (xs, rest) := sepByGo s₁.length s₁
    some (x :: xs, rest)

/-- `parse_index_list` (parser.rs line 473): a first `dec_int`, then
`opt(",")`; if the comma was present, `separated(0.., dec_int, ",")`
prepended with the first element, else the singleton. -/
def parse_index_list : P (List Int) := fun s =>
  step (dec_int s) fun first s₁ =>
  match s₁ with
  | ',' :: s₂ =>
    step (separatedInts s₂) fun elems rest => some (first :: elems, rest)
  | _ => some ([first], s₁)

/-! ## the sprite parser -/

/-- Value parser of `clothingOffset` / `pos`: `number, ',', number`. -/
def positionVal : P Position := fun s =>
  step (parse_number s) fun x s =>
  step (literal [','] s) fun _ s =>
  step (parse_number s) fun y s =>
  some (⟨x, y⟩, s)

/-- `parse_sprite_position` (parser.rs line 749). -/
def parse_sprite_position : P Position := parse_assignment "pos" positionVal

/-- `parse_sprite_color` (parser.rs line 739). -/
def parse_sprite_color : P ColorRGB := fun s =>
  step (parse_number s) fun r s =>
  step (literal [','] s) fun _ s =>
  step (parse_number s) fun g s =>
  step (literal [','] s) fun _ s =>
  step (parse_number s) fun b s =>
  some (⟨r, g, b⟩, s)

/-- Value parser of `ageRange`: `number, ',', number`. -/
def ageRangeVal : P AgeRange := fun s =>
  step (parse_number s) fun mn s =>
  step (literal [','] s) fun _ s =>
  step (parse_number s) fun mx s =>
  some (⟨mn, mx⟩, s)

/-- `parse_invis_cont` (parser.rs line 735). -/
def parse_invis_cont : P Number := parse_assignment "invisCont" parse_number

/-- `parse_sprite` (parser.rs line 689): the strictly ordered field chain;
after `behindSlots` an `opt(separator)` (note: this is committed when a
separator is present) and then the non-committing `opt(parse_invis_cont)`. -/
def parse_sprite : P Sprite := fun s =>
  step (parse_assignment "spriteID" (dec_uint u64Max) s) fun id s =>
  step (separator s) fun _ s =>
  step (parse_sprite_position s) fun position s =>
  step (separator s) fun _ s =>
  step (parse_assignment "rot" parse_number s) fun rot s =>
  step (separator s) fun _ s =>
  step (parse_assignment "hFlip" parse_number s) fun h_flip s =>
  step (separator s) fun _ s =>
  step (parse_assignment "color" parse_sprite_color s) fun color s =>
  step (separator s) fun _ s =>
  step (parse_assignment "ageRange" ageRangeVal s) fun age_range s =>
  step (separator s) fun _ s =>
  step (parse_assignment "parent" dec_int s) fun parent s =>
  step (separator s) fun _ s =>
  step (parse_assignment "invisHolding" parse_number s) fun invis_holding s =>
  step (separator s) fun _ s =>
  step (parse_assignment "invisWorn" parse_number s) fun invis_worn s =>
  step (separator s) fun _ s =>
  step (parse_assignment "behindSlots" parse_number s) fun behind_slots s =>
  step (opt separator s) fun _ s =>
  step (opt parse_invis_cont s) fun invis_cont s =>
  some (⟨id, position, rot, h_flip, color, age_range, parent,
    invis_holding, invis_worn, behind_slots, invis_cont⟩, s)

/-- The terminator of the sprite loop (parser.rs line 465):
`parse_assignment(i, "headIndex", parse_index_list)` and nothing else. -/
def headTerminator : P (List Int) := parse_assignment "headIndex" parse_index_list

/-- `parse_sprite_le` (parser.rs line 459): a sprite followed by a
separator. -/
def parse_sprite_le : P Sprite := fun s =>
  step (parse_sprite s) fun sp s₁ =>
  step (separator s₁) fun _ s₂ =>
  some (sp, s₂)

/-- winnow `repeat_till(0.., parse_sprite_le, terminator)`: at each step
the terminator is attempted first; on its failure one element is parsed,
and an element failure fails the whole loop.  Every element consumes at
least one character, so `length + 1` fuel is never exhausted first. -/
def parseSpritesGo : Nat → List Char → Option ((List Sprite × List Int) × List Char)
  | 0, _ => none
  | fuel + 1, s =>
    match headTerminator s with
    | some (hi, s₁) => some (([], hi), s₁)
    | none =>
      match parse_sprite_le s with
      | none => none
      | some (sp, s₁) =>
        match parseSpritesGo fuel s₁ with
        | some ((sps, hi), s₂) => some ((sp :: sps, hi), s₂)
        | none => none

/-- `parse_sprites` (parser.rs line 458). -/
def parse_sprites : P (List Sprite × List Int) := fun s =>
  parseSpritesGo (s.length + 1) s

/-! ## the object parser -/

/-- `repeat_till(0.., none_of(['\n']), line_ending)` collecting the
description (parser.rs line 170): try the line ending first, else consume
one character that is not `'\n'`. -/
def descriptionGo : Nat → List Char → Option (List Char × List Char)
  | 0, _ => none
  | fuel + 1, s =>
    match line_ending s with
    | some (_, s₁) => some ([], s₁)
    | none =>
      match s with
      | c :: rest =>
        if c = '\n' then none
        else
          match descriptionGo fuel rest with
          | some (d, r) => some (c :: d, r)
          | none => none
      | [] => none

/-- The header fields of `parse_object` (parser.rs lines 167-196), up to
and including `clothingOffset`. -/
structure Header where
  id : Nat
  description : List Char
  person : Nat
  male : Nat
  clothing : List Char
  clothing_offset : Position
deriving DecidableEq, Repr

/-- parser.rs lines 167-196: `id`, line ending, description, skip to
`person`, `person` flag (`u8`), skip to `male`, `male` flag (`u8`), skip
to `clothing`, `clothing` code (`alphanumeric1`), separator,
`clothingOffset`. -/
def parse_header : P Header := fun s =>
  step (parse_assignment "id" (dec_uint u64Max) s) fun id s =>
  step (line_ending s) fun _ s =>
  step (descriptionGo (s.length + 1) s) fun description s =>
  step (take_until "person".toList s) fun _ s =>
  step (parse_assignment "person" (dec_uint u8Max) s) fun person s =>
  step (take_until "male".toList s) fun _ s =>
  step (parse_assignment "male" (dec_uint u8Max) s) fun male s =>
  step (take_until "clothing".toList s) fun _ s =>
  step (parse_assignment "clothing" alphanumeric1 s) fun clothing s =>
  step (separator s) fun _ s =>
  step (parse_assignment "clothingOffset" positionVal s) fun off s =>
  some (⟨id, description, person, male, clothing, off⟩, s)

/-- parser.rs lines 177-214: `is_person = person > 0`,
`is_male = male > 0`, `is_clothing = clothing != "n"`, and the
person-before-clothing `kind` computation with its string match whose
fall-through is `ClothingObject::default()`. -/
def object_kind_of (person male : Nat) (clothing : List Char)
    (clothing_offset : Position) : ObjectKind :=
  if person > 0 then
    if male > 0 then .Person .Masculine else .Person .Feminine
  else if clothing ≠ ['n'] then
    .NonPerson (.Clothing
      (if clothing = ['s'] then .Shoe clothing_offset
       else if clothing = ['t'] then .Tunic clothing_offset
       else if clothing = ['h'] then .Hat clothing_offset
       else if clothing = ['b'] then .Bottom clothing_offset
       else ClothingObject.default))
  else .NonPerson .Other

/-- The trailing fields of `parse_object` (parser.rs lines 216-228). -/
structure Tail where
  num_sprites : Nat
  sprites : List Sprite
  head_index : List Int
  body_index : List Int
  back_foot_index : List Int
  front_foot_index : List Int
deriving DecidableEq, Repr

/-- parser.rs lines 216-228: skip to `numSprites`, the declared count,
separator, the sprite loop (returning sprites and `headIndex`), then
`bodyIndex`, `backFootIndex`, `frontFootIndex`, each after a separator. -/
def parse_object_tail : P Tail := fun s =>
  step (take_until "numSprites".toList s) fun _ s =>
  step (parse_assignment "numSprites" (dec_uint u64Max) s) fun num_sprites s =>
  step (separator s) fun _ s =>
  step (parse_sprites s) fun sh s =>
  step (separator s) fun _ s =>
  step (parse_assignment "bodyIndex" parse_index_list s) fun body_index s =>
  step (separator s) fun _ s =>
  step (parse_assignment "backFootIndex" parse_index_list s) fun back_foot_index s =>
  step (separator s) fun _ s =>
  step (parse_assignment "frontFootIndex" parse_index_list s) fun front_foot_index s =>
  some (⟨num_sprites, sh.1, sh.2, body_index, back_foot_index, front_foot_index⟩, s)

/-- `parse_object` (parser.rs line 166): header, kind computation, tail,
assembled `Object`.  Trailing unconsumed input is allowed (the caller
uses `parse_next` semantics and discards the rest). -/
def parse_object : P Object := fun s =>
  match parse_header s with
  | none => none
  | some (h, s₁) =>
    match parse_object_tail s₁ with
    | none => none
    | some (t, rest) =>
      some ({ id := h.id
              description := h.description
              kind := object_kind_of h.person h.male h.clothing h.clothing_offset
              num_sprites := t.num_sprites
              sprites := t.sprites
              head_index := t.head_index
              body_index := t.body_index
              back_foot_index := t.back_foot_index
              front_foot_index := t.front_foot_index }, rest)

/-! ## the directory scan -/

/-- A directory entry: file name (no directory part) and its text
content, assumed readable (an unreadable file is a fatal error in the
source and outside every claim). -/
structure DirEntry where
  name : String
  content : String

/-- `non_object_files` (parser.rs line 144). -/
def non_object_files : List String :=
  ["nextObjectNumber.txt", "groundHeat_6.txt", "groundHeat_5.txt", "groundHeat_4.txt"]

/-- Rust `Path::extension` on a plain file name: the portion after the
last `.`, none when there is no `.` or when the only `.` is the leading
character. -/
def extension (name : List Char) : Option (List Char) :=
  let rev := name.reverse
  let ext := rev.takeWhile (fun c => c ≠ '.')
  match rev.dropWhile (fun c => c ≠ '.') with
  | '.' :: stem => if stem.isEmpty then none else some ext.reverse
  | _ => none

/-- `parse` (parser.rs line 139).  `entry.path()` is the directory path
joined with the file name, and the exclusion test compares that joined
path against the bare names in `non_object_files` (`path ==
PathBuf::from(f)`), exactly as the source does. -/
def parse (dir : String) : List DirEntry → List Object
  | [] => []
  | e :: rest =>
    let path := dir ++ "/" ++ e.name
    let is_object_file := ! non_object_files.any (fun f => path == f)
    match extension e.name.toList with
    | some ext =>
      if ext == "txt".toList && is_object_file then
        match parse_object e.content.toList with
        | some (obj, _) => obj :: parse dir rest
        | none => parse dir rest
      else parse dir rest
    | none => parse dir rest

/-- The candidate condition of one loop iteration of `parse`, split out
for the statement of the collection theorem. -/
def isCandidateEntry (dir : String) (e : DirEntry) : Bool :=
  (match extension e.name.toList with
   | some ext => ext == "txt".toList
   | none => false) &&
  ! non_object_files.any (fun f => (dir ++ "/" ++ e.name) == f)

/-- The object a successfully parsed entry contributes (unused default
otherwise). -/
def objectOf (e : DirEntry) : Object :=
  match parse_object e.content.toList with
  | some (obj, _) => obj
  | none => Object.default

/-! ## concrete inputs used by the claims -/

/-- A minimal well-formed object record: no sprites, `headIndex=-1`,
every index list `[-1]`. -/
def minimalObjectText : String :=
  "id=1\nd\nperson=0\nmale=0\nclothing=n\nclothingOffset=0,0\nnumSprites=0\nheadIndex=-1\nbodyIndex=-1\nbackFootIndex=-1\nfrontFootIndex=-1"

/-- One sprite record carrying a trailing `invisCont`. -/
def spriteTextIC : String :=
  "spriteID=1\npos=0,0\nrot=0\nhFlip=0\ncolor=0,0,0\nageRange=0,0\nparent=-1\ninvisHolding=0,invisWorn=0,behindSlots=0\ninvisCont=0"

/-- A well-formed object record with one sprite, terminated by
`headIndex=-1`. -/
def c1PlainText : String :=
  "id=1\nd\nperson=0\nmale=0\nclothing=n\nclothingOffset=0,0\nnumSprites=1\n"
  ++ spriteTextIC
  ++ "\nheadIndex=-1\nbodyIndex=-1\nbackFootIndex=-1\nfrontFootIndex=-1"

/-- The same record with `spritesAdditiveBlend=0,5,3,1` immediately
before `headIndex=-1` (the shape claim C1 says must parse). -/
def c1AdditiveText : String :=
  "id=1\nd\nperson=0\nmale=0\nclothing=n\nclothingOffset=0,0\nnumSprites=1\n"
  ++ spriteTextIC
  ++ "\nspritesAdditiveBlend=0,5,3,1\nheadIndex=-1\nbodyIndex=-1\nbackFootIndex=-1\nfrontFootIndex=-1"

/-- A sprite record ending at `behindSlots=0` with no `invisCont`,
followed by a single separator and the `headIndex` terminator. -/
def c2BlockText : String :=
  "spriteID=1\npos=0,0\nrot=0\nhFlip=0\ncolor=0,0,0\nageRange=0,0\nparent=-1\ninvisHolding=0,invisWorn=0,behindSlots=0\nheadIndex=-1"

/-- The sprite of `c2BlockText`, as `parse_sprite` returns it. -/
def c2Sprite : Sprite :=
  ⟨1, ⟨.finite 0 0, .finite 0 0⟩, .finite 0 0, .finite 0 0,
   ⟨.finite 0 0, .finite 0 0, .finite 0 0⟩, ⟨.finite 0 0, .finite 0 0⟩,
   -1, .finite 0 0, .finite 0 0, .finite 0 0, none⟩

/-- An object record with `person=1` and no `male` key anywhere. -/
def c5NoMaleText : String :=
  "id=1\nd\nperson=1\nclothing=n\nclothingOffset=0,0\nnumSprites=0\nheadIndex=-1\nbodyIndex=-1\nbackFootIndex=-1\nfrontFootIndex=-1"

/-- An object record with `person=1`, `male=0`, `clothing=t`. -/
def c6Text : String :=
  "id=1\nd\nperson=1\nmale=0\nclothing=t\nclothingOffset=0,0\nnumSprites=0\nheadIndex=-1\nbodyIndex=-1\nbackFootIndex=-1\nfrontFootIndex=-1"

/-- An object record with `person=0`, `clothing=t`,
`clothingOffset=2.5,-3`. -/
def c7Text : String :=
  "id=1\nd\nperson=0\nmale=0\nclothing=t\nclothingOffset=2.5,-3\nnumSprites=0\nheadIndex=-1\nbodyIndex=-1\nbackFootIndex=-1\nfrontFootIndex=-1"

/-- An object record with `person=0`, the unmapped clothing code `k`, and
a non-zero `clothingOffset`. -/
def c10Text : String :=
  "id=1\nd\nperson=0\nmale=0\nclothing=k\nclothingOffset=5,5\nnumSprites=0\nheadIndex=-1\nbodyIndex=-1\nbackFootIndex=-1\nfrontFootIndex=-1"

/-- An object record declaring `numSprites=7` while containing exactly
one sprite record. -/
def c9Text7 : String :=
  "id=1\nd\nperson=0\nmale=0\nclothing=n\nclothingOffset=0,0\nnumSprites=7\n"
  ++ spriteTextIC
  ++ "\nheadIndex=-1\nbodyIndex=-1\nbackFootIndex=-1\nfrontFootIndex=-1"

/-- The same record declaring `numSprites=99`. -/
def c9Text99 : String :=
  "id=1\nd\nperson=0\nmale=0\nclothing=n\nclothingOffset=0,0\nnumSprites=99\n"
  ++ spriteTextIC
  ++ "\nheadIndex=-1\nbodyIndex=-1\nbackFootIndex=-1\nfrontFootIndex=-1"

/-- The input remaining after the header of the minimal records below. -/
def tailRest0Text : String :=
  "\nnumSprites=0\nheadIndex=-1\nbodyIndex=-1\nbackFootIndex=-1\nfrontFootIndex=-1"

/-- Object record with `person=1`, `male=0` (and `clothing=n`). -/
def c5FeminineText : String :=
  "id=1\nd\nperson=1\nmale=0\nclothing=n\nclothingOffset=0,0" ++ tailRest0Text

/-- Header parsed from `c5FeminineText`. -/
def c5FeminineHeader : Header :=
  ⟨1, ['d'], 1, 0, ['n'], ⟨.finite 0 0, .finite 0 0⟩⟩

/-- Object parsed from `c5FeminineText`. -/
def c5FeminineObj : Object :=
  ⟨1, ['d'], .Person .Feminine, 0, [], [-1], [-1], [-1], [-1]⟩

/-- Header parsed from `c6Text` (`person=1`, `male=0`, `clothing=t`). -/
def c6Header : Header :=
  ⟨1, ['d'], 1, 0, ['t'], ⟨.finite 0 0, .finite 0 0⟩⟩

/-- Object parsed from `c6Text`. -/
def c6Obj : Object :=
  ⟨1, ['d'], .Person .Feminine, 0, [], [-1], [-1], [-1], [-1]⟩

/-- Header parsed from `c7Text` (`person=0`, `clothing=t`,
`clothingOffset=2.5,-3`, i.e. x = 25·10⁻¹ and y = −3). -/
def c7Header : Header :=
  ⟨1, ['d'], 0, 0, ['t'], ⟨.finite 25 (-1), .finite (-3) 0⟩⟩

/-- Object parsed from `c7Text`. -/
def c7Obj : Object :=
  ⟨1, ['d'], .NonPerson (.Clothing (.Tunic ⟨.finite 25 (-1), .finite (-3) 0⟩)),
   0, [], [-1], [-1], [-1], [-1]⟩

/-- Header parsed from `c10Text` (`person=0`, `clothing=k`,
`clothingOffset=5,5`). -/
def c10Header : Header :=
  ⟨1, ['d'], 0, 0, ['k'], ⟨.finite 5 0, .finite 5 0⟩⟩

/-- Object parsed from `c10Text`: the unmapped code `k` falls back to
`ClothingObject::default()`, carrying position (0, 0) and not the parsed
offset (5, 5). -/
def c10Obj : Object :=
  ⟨1, ['d'], .NonPerson (.Clothing (.Tunic ⟨.finite 0 0, .finite 0 0⟩)),
   0, [], [-1], [-1], [-1], [-1]⟩

/-- `true` exactly on a kind containing the `ClothingObject::Backpack`
variant. -/
def kindIsBackpack : ObjectKind → Bool
  | .NonPerson (.Clothing (.Backpack _)) => true
  | _ => false

/-! ## shared lemmas -/

lemma object_kind_of_no_Backpack (p m : Nat) (c : List Char) (off : Position) :
    kindIsBackpack (object_kind_of p m c off) = false := by
  unfold object_kind_of ClothingObject.default
  split_ifs <;> rfl

lemma parse_object_kind {input s₁ rest : List Char} {h : Header} {obj : Object}
    (hh : parse_header input = some (h, s₁))
    (ho : parse_object input = some (obj, rest)) :
    obj.kind = object_kind_of h.person h.male h.clothing h.clothing_offset := by
  unfold parse_object at ho
  rw [hh] at ho
  dsimp only at ho
  cases ht : parse_object_tail s₁ with
  | none => rw [ht] at ho; cases ho
  | some v =>
    rw [ht] at ho
    obtain ⟨t, r⟩ := v
    simp only [Option.some.injEq, Prod.mk.injEq] at ho
    obtain ⟨h₁, h₂⟩ := ho
    subst h₁
    rfl

lemma separatedInts_isSome (s : List Char) :
    ∃ es rest, separatedInts s = some (es, rest) := by
  unfold separatedInts
  cases hd : dec_int s with
  | none => exact ⟨[], s, rfl⟩
  | some v =>
    obtain ⟨y, t⟩ := v
    exact ⟨y :: (sepByGo t.length t).1, (sepByGo t.length t).2, rfl⟩

lemma parse_cons (dir : String) (e : DirEntry) (rest : List DirEntry) :
    parse dir (e :: rest) =
      if isCandidateEntry dir e && (parse_object e.content.toList).isSome then
        objectOf e :: parse dir rest
      else parse dir rest := by
  conv_lhs => rw [parse]
  cases hExt : extension e.name.data with
  | none => simp [isCandidateEntry, String.toList, hExt]
  | some ext =>
    cases hp : parse_object e.content.data with
    | none => simp [isCandidateEntry, String.toList, hExt, hp, objectOf]
    | some v =>
      obtain ⟨o, r⟩ := v
      simp [isCandidateEntry, String.toList, hExt, hp, objectOf]

/-! ## the claims -/

/-- C1, counterexample: the claim says an otherwise well-formed object
record containing `spritesAdditiveBlend=0,5,3,1` immediately before
`headIndex=-1` parses successfully; on the code the sprite-loop
terminator tries only `headIndex`, the additive-blend line matches
neither the terminator nor `spriteID`, and the whole record is
rejected. -/
theorem c1_spritesAdditiveBlend_rejected :
    parse_object c1AdditiveText.toList = none := by rfl

/-- C1, amended: the terminator after the repeating sprite block is
solely `headIndex=<indexList>` (no `spritesDrawnBehind` or
`spritesAdditiveBlend` lookahead exists, and `Object` has no field for
them); the record without the additive-blend line parses with
`head_index = [-1]`, and the same record with
`spritesAdditiveBlend=0,5,3,1` before `headIndex=-1` fails to parse. -/
theorem c1_terminator_is_headIndex_only :
    (parse_object c1PlainText.toList).map (fun r => r.1.head_index) = some [-1]
    ∧ parse_object c1AdditiveText.toList = none :=
  ⟨by rfl, by rfl⟩

/-- C2, counterexample: the claim says a sprite block whose records lack
`invisCont` still parses as a sequence of sprites terminated by
`headIndex`; on the code the block consisting of one such sprite record,
one newline and `headIndex=-1` is rejected, because `parse_sprite`
commits the `opt(separator)` before the `invisCont` attempt and the
caller then demands a second separator. -/
theorem c2_missing_invisCont_block_fails :
    parse_sprites c2BlockText.toList = none := by rfl

/-- C2, amended: on a sprite record ending at `behindSlots` with no
`invisCont` key, `parse_sprite` succeeds with `invis_cont = none` but
consumes the one separator that follows `behindSlots` (the
`opt(separator)` before the invisCont attempt is committed; only the
`opt(parse_invis_cont)` itself is non-committing), so parsing resumes
after that separator instead of before it; consequently a sprite block
whose records lack `invisCont` and are followed by a single separator
fails to parse. -/
theorem c2_optional_separator_is_committed :
    parse_sprite c2BlockText.toList = some (c2Sprite, "headIndex=-1".toList)
    ∧ parse_sprites c2BlockText.toList = none :=
  ⟨by rfl, by rfl⟩

/-- C3: the code compares the full joined path (`dir/name`) against the
bare file names of the exclusion set, so the comparison never matches in
a real directory and an entry named `nextObjectNumber.txt` with
well-formed object content is parsed and contributes an element,
contradicting the claim (and the evident intent of `non_object_files`). -/
theorem c3_excluded_filename_still_contributes :
    (parse "objects" [⟨"nextObjectNumber.txt", minimalObjectText⟩]).length = 1 := by rfl

/-- C4: `parse` returns exactly one `Object` per candidate entry whose
content `parse_object` accepts, in enumeration order; an entry whose
content is rejected is silently omitted and contributes nothing, and
every returned element is the complete object parsed from its file. -/
theorem c4_parse_collects_exactly_successes (dir : String) (entries : List DirEntry) :
    parse dir entries =
      (entries.filter fun e =>
        isCandidateEntry dir e && (parse_object e.content.toList).isSome).map objectOf := by
  induction entries with
  | nil => rfl
  | cons e rest ih =>
    rw [parse_cons, List.filter_cons]
    by_cases hb : (isCandidateEntry dir e && (parse_object e.content.toList).isSome) = true
    · rw [if_pos hb, if_pos hb, List.map_cons, ih]
    · rw [if_neg hb, if_neg hb, ih]

/-- C5, counterexample: the claim says the person characteristic
defaults to Feminine when the `male` flag is absent; on the code a
record with `person=1` and no `male` key fails to parse entirely
(`take_until "male"` fails), so no `Person(Feminine)` is produced. -/
theorem c5_male_absent_not_feminine :
    (parse_object c5NoMaleText.toList).map (fun r => r.1.kind)
      ≠ some (ObjectKind.Person PersonCharacteristic.Feminine) := by decide

/-- C5, amended: when an object record has a positive `person` value and
the `male` key is present with value zero, `parse_object` yields
`Person(Feminine)`; when the `male` key is absent the record fails to
parse instead of defaulting (shown on the concrete male-less record). -/
theorem c5_feminine_needs_male_key :
    (∀ (input s₁ rest : List Char) (h : Header) (obj : Object),
        parse_header input = some (h, s₁) → 0 < h.person → h.male = 0 →
        parse_object input = some (obj, rest) →
        obj.kind = ObjectKind.Person PersonCharacteristic.Feminine)
    ∧ parse_object c5NoMaleText.toList = none := by
  constructor
  · intro input s₁ rest h obj hh hp hm ho
    rw [parse_object_kind hh ho, hm]
    unfold object_kind_of
    rw [if_pos hp]
    rfl
  · rfl

/-- C5, witness: the amended theorem applied to the concrete record with
`person=1` and `male=0`. -/
theorem c5_feminine_needs_male_key_witness :
    c5FeminineObj.kind = ObjectKind.Person PersonCharacteristic.Feminine :=
  c5_feminine_needs_male_key.1 c5FeminineText.toList tailRest0Text.toList []
    c5FeminineHeader c5FeminineObj (by rfl) (by decide) (by rfl) (by rfl)

/-- C6: an object record parsed with `person=1` and `male=0` yields
`Person(Feminine)` whatever its clothing code and clothingOffset are:
the person flag takes priority, and, `ObjectKind` being a sum, the
result is never simultaneously a Person and a Clothing. -/
theorem c6_person_has_priority :
    ∀ (input s₁ rest : List Char) (h : Header) (obj : Object),
      parse_header input = some (h, s₁) → h.person = 1 → h.male = 0 →
      parse_object input = some (obj, rest) →
      obj.kind = ObjectKind.Person PersonCharacteristic.Feminine := by
  intro input s₁ rest h obj hh hp hm ho
  rw [parse_object_kind hh ho, hp, hm]
  rfl

/-- C6, witness: the theorem applied to the concrete record with
`person=1`, `male=0` and `clothing=t`. -/
theorem c6_person_has_priority_witness :
    c6Obj.kind = ObjectKind.Person PersonCharacteristic.Feminine :=
  c6_person_has_priority c6Text.toList tailRest0Text.toList [] c6Header c6Obj
    (by rfl) (by rfl) (by rfl) (by rfl)

/-- C7: an object record parsed with `person=0` and `clothing=t` yields
`NonPerson(Clothing(Tunic(offset)))` where `offset` is exactly the
`Position` parsed from the record's `clothingOffset` field. -/
theorem c7_clothing_t_gives_tunic_with_offset :
    ∀ (input s₁ rest : List Char) (h : Header) (obj : Object),
      parse_header input = some (h, s₁) → h.person = 0 → h.clothing = ['t'] →
      parse_object input = some (obj, rest) →
      obj.kind = ObjectKind.NonPerson
        (NonPersonObject.Clothing (ClothingObject.Tunic h.clothing_offset)) := by
  intro input s₁ rest h obj hh hp hc ho
  rw [parse_object_kind hh ho, hp, hc]
  rfl

/-- C7, witness: the theorem applied to the concrete record with
`person=0`, `clothing=t` and `clothingOffset=2.5,-3`. -/
theorem c7_clothing_t_gives_tunic_with_offset_witness :
    c7Obj.kind = ObjectKind.NonPerson
      (NonPersonObject.Clothing (ClothingObject.Tunic c7Header.clothing_offset)) :=
  c7_clothing_t_gives_tunic_with_offset c7Text.toList tailRest0Text.toList []
    c7Header c7Obj (by rfl) (by rfl) (by rfl) (by rfl)

/-- C8, counterexample: the claim says `parse_index_list` consumes a
comma-separated sequence with no trailing delimiter; on the input `0,`
the code consumes the trailing comma as well (the `opt(",")` commits and
the following `separated(0.., ...)` accepts zero elements), leaving an
empty remainder. -/
theorem c8_trailing_comma_consumed :
    parse_index_list ("0,".toList) = some ([0], []) := by rfl

/-- C8, amended: `parse_index_list` consumes a comma-separated sequence
of signed decimal integers, except that a comma directly after the first
integer is consumed even when no integer follows it (only then is a
trailing delimiter consumed); on success the result has at least one
element; it fails whenever the first token is not a valid signed
integer; `1,3,5,9,2` yields `[1,3,5,9,2]` and `-1` yields `[-1]`. -/
theorem c8_index_list_shape :
    (∀ (s : List Char) (r : List Int) (rest : List Char),
        parse_index_list s = some (r, rest) → r ≠ [])
    ∧ (∀ s : List Char, dec_int s = none → parse_index_list s = none)
    ∧ parse_index_list "1,3,5,9,2".toList = some ([1, 3, 5, 9, 2], [])
    ∧ parse_index_list "-1".toList = some ([-1], [])
    ∧ parse_index_list "0,".toList = some ([0], []) := by
  refine ⟨?_, ?_, by rfl, by rfl, by rfl⟩
  · intro s r rest h
    unfold parse_index_list step at h
    cases hd : dec_int s with
    | none => rw [hd] at h; cases h
    | some v =>
      obtain ⟨x, s₁⟩ := v
      rw [hd] at h
      dsimp only at h
      split at h
      · rename_i s₂
        obtain ⟨es, rr, hsep⟩ := separatedInts_isSome s₂
        rw [hsep] at h
        dsimp only at h
        cases h
        exact List.cons_ne_nil _ _
      · cases h
        exact List.cons_ne_nil _ _
  · intro s hnone
    unfold parse_index_list step
    rw [hnone]

/-- C8, witness: the amended theorem applied at the concrete inputs `5`
(nonempty result) and `x` (invalid first token). -/
theorem c8_index_list_shape_witness :
    (([5] : List Int) ≠ ([] : List Int)) ∧ parse_index_list ['x'] = none :=
  ⟨c8_index_list_shape.1 ['5'] [5] [] (by rfl),
   c8_index_list_shape.2.1 ['x'] (by rfl)⟩

/-- C9: the declared `numSprites` value is recorded verbatim in the
resulting `Object` but never bounds the sprite loop nor is validated
against the actual count: the same record text with declared counts 7
and 99 parses to the same single-sprite list, so `sprites.length`
differs from `num_sprites` on concrete accepted inputs. -/
theorem c9_num_sprites_descriptive_only :
    (parse_object c9Text7.toList).map (fun r => (r.1.num_sprites, r.1.sprites.length))
      = some (7, 1)
    ∧ (parse_object c9Text99.toList).map (fun r => (r.1.num_sprites, r.1.sprites.length))
      = some (99, 1)
    ∧ (parse_object c9Text7.toList).map (fun r => r.1.sprites)
      = (parse_object c9Text99.toList).map (fun r => r.1.sprites)
    ∧ (7 : Nat) ≠ 1 :=
  ⟨by rfl, by rfl, by rfl, by decide⟩

/-- C10: no parse result ever contains the `ClothingObject::Backpack`
variant, and with `person=0` every clothing code other than `n` and
outside `{s,t,h,b}` (such as `k`) degrades without failing to the
default `Tunic` carrying the default position (0, 0) rather than the
parsed `clothingOffset`. -/
theorem c10_no_backpack_unknown_code_defaults :
    (∀ (input rest : List Char) (obj : Object),
        parse_object input = some (obj, rest) → kindIsBackpack obj.kind = false)
    ∧ (∀ (input s₁ rest : List Char) (h : Header) (obj : Object),
        parse_header input = some (h, s₁) →
        parse_object input = some (obj, rest) →
        h.person = 0 → h.clothing ≠ ['n'] →
        h.clothing ∉ [['s'], ['t'], ['h'], ['b']] →
        obj.kind = ObjectKind.NonPerson (NonPersonObject.Clothing
          (ClothingObject.Tunic ⟨Number.finite 0 0, Number.finite 0 0⟩))) := by
  constructor
  · intro input rest obj ho
    cases hh : parse_header input with
    | none =>
      unfold parse_object at ho
      rw [hh] at ho
      cases ho
    | some v =>
      obtain ⟨h, s₁⟩ := v
      rw [parse_object_kind hh ho]
      exact object_kind_of_no_Backpack h.person h.male h.clothing h.clothing_offset
  · intro input s₁ rest h obj hh ho hp hn hmem
    simp only [List.mem_cons, List.not_mem_nil, or_false, not_or] at hmem
    obtain ⟨h1, h2, h3, h4⟩ := hmem
    rw [parse_object_kind hh ho, hp]
    unfold object_kind_of
    rw [if_neg (lt_irrefl 0), if_pos hn, if_neg h1, if_neg h2, if_neg h3, if_neg h4]
    rfl

/-- C10, witness: both parts applied to the concrete record with
`person=0`, `clothing=k` and `clothingOffset=5,5`. -/
theorem c10_no_backpack_unknown_code_defaults_witness :
    kindIsBackpack c10Obj.kind = false
    ∧ c10Obj.kind = ObjectKind.NonPerson (NonPersonObject.Clothing
        (ClothingObject.Tunic ⟨Number.finite 0 0, Number.finite 0 0⟩)) :=
  ⟨c10_no_backpack_unknown_code_defaults.1 c10Text.toList [] c10Obj (by rfl),
   c10_no_backpack_unknown_code_defaults.2 c10Text.toList tailRest0Text.toList []
     c10Header c10Obj (by rfl) (by rfl) (by rfl) (by decide) (by decide)⟩

end Thol
